import Mathlib

/-!
Shallow embedding of the VideoSuperResolution repository
(src/VSR/Framework/SuperResolution.py and src/VSR/Models/Espcn.py).

The tensorflow graph is represented symbolically by the inductive type
`Tensor`: each graph-building call of the Python source appends explicit
`Tensor` nodes to the model state.  Batched execution methods are
embedded as pure functions that take an evaluation oracle for the
external session and return the (unchanged) model together with the
single session-run call they issue and its results.  Machine floats are
modelled by exact rationals.
-/

namespace VSR

/-- Tensor element dtypes used by the source (`tf.uint8`, `tf.float32`). -/
inductive DType
  | uint8
  | float32
  deriving DecidableEq

/-- Kernel initializers reachable in `SuperResolution.conv2d`:
`tf.keras.initializers.he_normal()` for the string `"he_normal"`, or an
arbitrary caller-supplied callable (identified by an opaque id). -/
inductive Initializer
  | heNormal
  | custom (id : Nat)
  deriving DecidableEq

/-- Kernel regularizers reachable in `SuperResolution.conv2d`:
`tf.keras.regularizers.l1/l2(decay)`, or a caller-supplied callable. -/
inductive Regularizer
  | l1 (decay : ℚ)
  | l2 (decay : ℚ)
  | custom (id : Nat)
  deriving DecidableEq

/-- Activation functions: `tf.nn.relu`, `tf.nn.tanh`, or a
caller-supplied callable (identified by an opaque id). -/
inductive Activator
  | relu
  | tanh
  | custom (id : Nat)
  deriving DecidableEq

/-- Symbolic tensorflow graph nodes.  Each constructor mirrors one call
appearing in the source:
* `placeholder`  — `tf.placeholder(dtype, shape=[None,None,None,c], name)`
* `cast`         — `tf.cast(t, dtype)`
* `divC` / `mulC`— division / multiplication by a scalar constant
* `rgb_to_yuv`   — `tf.image.rgb_to_yuv(t)`
* `slice`        — `t[..., lo:hi]` on the channel axis (`hi = none` means
                   an omitted upper bound; negative bounds count from the
                   end, as in Python)
* `conv`         — `tf.layers.conv2d(x, filters, ksize, ..., activation,
                   use_bias, kernel_initializer, kernel_regularizer)`
* `batch_norm`   — `tf.layers.batch_normalization(x, training=...)`
* `act`          — applying an activation function to a tensor
* `pixel_shift`  — `Utility.pixel_shift(x, scale, 1)` (sub-pixel
                   rearrangement; opaque external op)
* `mse`          — `tf.losses.mean_squared_error(a, b)`
* `total_variation`, `reduce_mean`, `add` — the corresponding tf ops
* `add_n_reg`    — `tf.add_n(tf.losses.get_regularization_losses())`
* `psnr` / `ssim`— `tf.image.psnr/ssim(a, b, max_val)`
* `minimize`     — `tf.train.AdamOptimizer(lr).minimize(loss, step)`
* `merge_summaries` — `tf.summary.merge_all()` over the registered
                   scalar summaries. -/
inductive Tensor
  | placeholder (dtype : DType) (channels : Nat) (name : String)
  | cast (t : Tensor) (dtype : DType)
  | divC (t : Tensor) (c : ℚ)
  | mulC (t : Tensor) (c : ℚ)
  | rgb_to_yuv (t : Tensor)
  | slice (t : Tensor) (lo : Int) (hi : Option Int)
  | conv (x : Tensor) (filters : Int) (ksize : Nat)
         (ki : Option Initializer) (kr : Option Regularizer)
         (activation : Option Activator) (use_bias : Bool)
  | batch_norm (x : Tensor)
  | act (a : Activator) (x : Tensor)
  | pixel_shift (x : Tensor) (scale : List Int) (ch : Nat)
  | mse (yTrue yPred : Tensor)
  | total_variation (x : Tensor)
  | reduce_mean (x : Tensor)
  | add (a b : Tensor)
  | add_n_reg
  | psnr (a b : Tensor) (maxVal : ℚ)
  | ssim (a b : Tensor) (maxVal : ℚ)
  | minimize (lossT : Tensor)
  | merge_summaries (xs : List (String × Tensor))

/-- Placeholder tensor used as the (never reached) default of Python
`list[-1]` indexing on lists that the source guarantees nonempty. -/
def dummyT : Tensor := Tensor.placeholder DType.uint8 0 ""

/-- Python `l[-1]` on a list the source guarantees nonempty. -/
def lastT (l : List Tensor) : Tensor := l.getLastD dummyT

/-- Python exceptions raised (directly or by the runtime) in the
embedded fragment. -/
inductive PyError
  | valueError (msg : String)
  | typeError (msg : String)
  | notImplementedError (msg : String)
  | indexError
  deriving DecidableEq

/-- The ghost record of which build method ran, appended at the entry of
each concrete build step; used only to observe `compile`'s ordering. -/
inductive BuildStep
  | graph
  | lossStep
  | summaryStep
  deriving DecidableEq

/-- The scale argument accepted by `SuperResolution.__init__`: either a
single integer or a list of two integers. -/
inductive ScaleArg
  | int (s : Int)
  | pair (a b : Int)
  deriving DecidableEq

/-- Modelled from the spec: `to_list` lives in `VSR/Util/Utility.py`,
which is not under src/.  The spec says a single scalar scale "is
broadcast to both axes" (`to_list(scale, repeat=2)`), and a supplied
pair is stored as-is. -/
def to_list_scale : ScaleArg → List Int
  | ScaleArg.int s => [s, s]
  | ScaleArg.pair a b => [a, b]

/-- The mutable state of a `SuperResolution` (or `Espcn`) instance, as
initialized by `SuperResolution.__init__`.  `buildTrace` is ghost
instrumentation recording which build methods ran, in order; no embedded
code reads it. -/
structure Model where
  scale : List Int
  weight_decay : ℚ
  rgba : Bool
  inputs : List Tensor
  inputs_preproc : List Tensor
  label : List Tensor
  outputs : List Tensor
  loss : List Tensor
  metrics : List (String × Tensor)
  summaries : List (String × Tensor)
  summary_op : Option Tensor
  compiled : Bool
  buildTrace : List BuildStep

/-- `SuperResolution.__init__(scale, weight_decay, rgb_input)`: stores
the normalized scale, the decay and the color mode, and initializes all
tensor sequences empty, the metrics mapping empty, `summary_op = None`
and `compiled = False`. -/
def SuperResolution_init (scale : ScaleArg) (weight_decay : ℚ)
    (rgb_input : Bool) : Model :=
  { scale := to_list_scale scale
    weight_decay := weight_decay
    rgba := rgb_input
    inputs := []
    inputs_preproc := []
    label := []
    outputs := []
    loss := []
    metrics := []
    summaries := []
    summary_op := none
    compiled := false
    buildTrace := [] }

/-- `SuperResolution.build_graph` (the base default).  Grayscale mode:
one `uint8` single-channel placeholder and its `float32` cast.  RGBA
mode: one `uint8` 4-channel placeholder; `yuv = cast(ph)/255`;
`yuv = rgb_to_yuv(yuv[..., :-1])`; append `yuv[..., 1:]` (UV) and
`yuv[..., 0:1] * 255` (Y) to `inputs_preproc`. -/
def base_build_graph (m : Model) : Model :=
  if !m.rgba then
    let ph := Tensor.placeholder DType.uint8 1 "input/lr/gray"
    { m with
      inputs := m.inputs ++ [ph]
      inputs_preproc := m.inputs_preproc ++ [Tensor.cast ph DType.float32] }
  else
    let ph := Tensor.placeholder DType.uint8 4 "input/lr/rgba"
    let yuv0 := Tensor.divC (Tensor.cast ph DType.float32) 255
    let yuv := Tensor.rgb_to_yuv (Tensor.slice yuv0 0 (some (-1)))
    { m with
      inputs := m.inputs ++ [ph]
      inputs_preproc := m.inputs_preproc ++
        [Tensor.slice yuv 1 none, Tensor.mulC (Tensor.slice yuv 0 (some 1)) 255] }

/-- `SuperResolution.build_loss`: the pure abstract method — always
raises `NotImplementedError`. -/
def base_build_loss (_ : Model) : Except PyError Model :=
  Except.error (PyError.notImplementedError
    "DO NOT use base SuperResolution directly! Use inheritive models instead.")

/-- `SuperResolution.build_summary`: the pure abstract method — always
raises `NotImplementedError`. -/
def base_build_summary (_ : Model) : Except PyError Model :=
  Except.error (PyError.notImplementedError
    "DO NOT use base SuperResolution directly! Use inheritive models instead.")

/-- `tf.summary.merge_all()`: merges the registered summary ops of the
model into one handle. -/
def merge_all (m : Model) : Tensor := Tensor.merge_summaries m.summaries

/-- `SuperResolution.compile`: invokes `build_graph`, `build_loss`,
`build_summary` in that order (dynamic dispatch is embedded by passing
the three methods), then merges all summaries, sets `compiled = True`
and returns the (updated) model itself. -/
def compile (bg : Model → Model) (bl bs : Model → Except PyError Model)
    (m : Model) : Except PyError Model :=
  ((bl (bg m)).bind bs).map fun mm =>
    { mm with summary_op := some (merge_all mm), compiled := true }

/-! ### The `conv2d` helper (SuperResolution.py lines 202-252) -/

/-- A Python argument value as it is dispatched on in `conv2d`: `None`,
a string, a callable (opaque id), or any other object with the given
truthiness.  Pass-through geometry arguments (strides, padding,
data_format, dilation_rate) are elided: `conv2d` forwards them verbatim
to `tf.layers.conv2d` without inspecting them. -/
inductive PyArg
  | none
  | str (s : String)
  | callable (id : Nat)
  | other (truthy : Bool)
  deriving DecidableEq

/-- Python truthiness of a `PyArg` (`if kernel_initializer:` etc.):
`None` and the empty string are falsy, callables are truthy. -/
def PyArg.isTruthy : PyArg → Bool
  | PyArg.none => false
  | PyArg.str s => if s = "" then false else true
  | PyArg.callable _ => true
  | PyArg.other t => t

/-- Resolution of `kernel_initializer` in `conv2d`:
`ki = None`; `if isinstance(_, str): if == 'he_normal': ki = he_normal()`
(any other string leaves `ki = None` with no error);
`elif callable(_): ki = _`; `elif _: raise ValueError(...)`. -/
def resolve_ki : PyArg → Except PyError (Option Initializer)
  | PyArg.str s =>
      if s = "he_normal" then Except.ok (some Initializer.heNormal)
      else Except.ok none
  | PyArg.callable i => Except.ok (some (Initializer.custom i))
  | PyArg.none => Except.ok none
  | PyArg.other t =>
      if t then Except.error (PyError.valueError "invalid kernel initializer!")
      else Except.ok none

/-- Resolution of `kernel_regularizer` in `conv2d`: the strings `'l1'`
and `'l2'` select `tf.keras.regularizers.l1/l2(self.weight_decay)` when
`self.weight_decay` is truthy (nonzero) and `None` otherwise; any other
string leaves `kr = None` with no error; a callable is taken as-is; any
other truthy value raises `ValueError`. -/
def resolve_kr (wd : ℚ) : PyArg → Except PyError (Option Regularizer)
  | PyArg.str s =>
      if s = "l1" then
        Except.ok (if wd = 0 then none else some (Regularizer.l1 wd))
      else if s = "l2" then
        Except.ok (if wd = 0 then none else some (Regularizer.l2 wd))
      else Except.ok none
  | PyArg.callable i => Except.ok (some (Regularizer.custom i))
  | PyArg.none => Except.ok none
  | PyArg.other t =>
      if t then Except.error (PyError.valueError "invalid kernel regularizer!")
      else Except.ok none

/-- The Python test `activator == 'tanh'` at SuperResolution.py:245.
At that point the local `activator` holds `None` (or, in principle, a
function object); Python equality between `None` or a function and a
string is always `False`, so this embedding is constantly `false`. -/
def activator_eq_str (_ : Option Activator) (_ : String) : Bool := false

/-- The string arm of activation resolution in `conv2d`:
`activator = None; if activation == 'relu': activator = tf.nn.relu;
elif activator == 'tanh': activator = tf.nn.tanh` — note the second
test reads the local `activator`, not `activation`. -/
def resolve_str_activator (s : String) : Option Activator :=
  let activator : Option Activator := none
  if s = "relu" then some Activator.relu
  else if activator_eq_str activator "tanh" then some Activator.tanh
  else activator

/-- `SuperResolution.conv2d(x, filters, kernel_size, ..., activation,
use_bias, use_batchnorm, kernel_initializer, kernel_regularizer)`:
resolves the initializer, then the regularizer, builds the
`tf.layers.conv2d` node (which itself receives no activation), applies
batch normalization when requested, and finally — when `activation` is
truthy — resolves the activator and applies it; if the resolved
`activator` is still `None` the call `activator(x)` raises `TypeError`. -/
def conv2d (m : Model) (x : Tensor) (filters : Int) (kernel_size : Nat)
    (activation : PyArg) (use_bias use_batchnorm : Bool)
    (kernel_initializer kernel_regularizer : PyArg) :
    Except PyError Tensor := do
  let ki ← resolve_ki kernel_initializer
  let kr ← resolve_kr m.weight_decay kernel_regularizer
  let x := Tensor.conv x filters kernel_size ki kr none use_bias
  let x := if use_batchnorm then Tensor.batch_norm x else x
  if activation.isTruthy then
    let activator ← (match activation with
      | PyArg.str s => Except.ok (resolve_str_activator s)
      | PyArg.callable i => Except.ok (some (Activator.custom i))
      | _ => Except.error (PyError.valueError "invalid activation!"))
    match activator with
    | some f => Except.ok (Tensor.act f x)
    | none => Except.error (PyError.typeError "NoneType object is not callable")
  else
    Except.ok x

/-- Boolean success test on an `Except` result. -/
def exceptIsOk : Except PyError Tensor → Bool
  | Except.ok _ => true
  | Except.error _ => false

/-! ### Per-pixel semantics of the preprocessing pipeline -/

/-- The Y row of tensorflow's fixed RGB→YUV kernel
(`tf.image.rgb_to_yuv`). -/
def yuv_y (r g b : ℚ) : ℚ :=
  (299/1000) * r + (587/1000) * g + (114/1000) * b

/-- The U row of tensorflow's fixed RGB→YUV kernel. -/
def yuv_u (r g b : ℚ) : ℚ :=
  (-14714119/100000000) * r + (-28886916/100000000) * g
    + (43601035/100000000) * b

/-- The V row of tensorflow's fixed RGB→YUV kernel. -/
def yuv_v (r g b : ℚ) : ℚ :=
  (61497538/100000000) * r + (-51496512/100000000) * g
    + (-10001026/100000000) * b

/-- Python slice-index normalization on a channel axis of length `n`:
negative indices count from the end and indices are clamped to `[0,n]`. -/
def pyIndex (n : Nat) (i : Int) : Nat :=
  if i < 0 then n - i.natAbs else min i.toNat n

/-- Python channel slice `l[lo:hi]` (with `hi = none` for an omitted
upper bound). -/
def pySlice (l : List ℚ) (lo : Int) (hi : Option Int) : List ℚ :=
  let n := l.length
  let b := match hi with
    | Option.none => n
    | some h => pyIndex n h
  (l.take b).drop (pyIndex n lo)

/-- Per-pixel value semantics of the channel-wise preprocessing nodes:
given the channel values of the input placeholder pixel, the channel
values of the tensor at that pixel.  Only the node kinds reachable from
`build_graph`'s preprocessing are given pixel semantics; the remaining
kinds are not channel-wise maps and are returned unchanged (they are
never evaluated by the theorems below). -/
def evalChans : Tensor → List ℚ → List ℚ
  | Tensor.placeholder _ _ _, px => px
  | Tensor.cast t _, px => evalChans t px
  | Tensor.divC t c, px => (evalChans t px).map (· / c)
  | Tensor.mulC t c, px => (evalChans t px).map (· * c)
  | Tensor.rgb_to_yuv t, px =>
      match evalChans t px with
      | [r, g, b] => [yuv_y r g b, yuv_u r g b, yuv_v r g b]
      | l => l
  | Tensor.slice t lo hi, px => pySlice (evalChans t px) lo hi
  | _, px => px

/-! ### Batched execution (train_batch / validate_batch / test_batch)

The external session is abstracted by an evaluation oracle
`Tensor → FeedDict → Val`; one `tf.get_default_session().run(fetches,
feed_dict)` call is recorded as a `RunCall` and its result is the
oracle mapped over the fetches.  A feature/label array handed to the
session is an opaque `Val`. -/

/-- Opaque handle for an externally supplied (or evaluated) array. -/
abbrev Val := Nat

/-- The feed dictionary built by the batched methods, in the order the
source inserts its keys: the `is_training` flag, the `learning_rate`
(only bound by `train_batch`), then the positional input and label
bindings. -/
structure FeedDict where
  training_phase : Bool
  learning_rate : Option ℚ
  input_feed : List (Tensor × Val)
  label_feed : List (Tensor × Val)

/-- One call to `tf.get_default_session().run(fetches, feed_dict)`. -/
structure RunCall where
  fetches : List Tensor
  feed : FeedDict

/-- The loop `for i in range(len(phs)): feed_dict[phs[i]] = vals[i]`:
binds the i-th placeholder to the i-th value; raises `IndexError` when
`vals` is shorter than `phs`, and ignores surplus values. -/
def bindSeq (phs : List Tensor) (vals : List Val) :
    Except PyError (List (Tensor × Val)) :=
  match phs, vals with
  | [], _ => Except.ok []
  | _ :: _, [] => Except.error PyError.indexError
  | p :: ps, v :: vs => (bindSeq ps vs).map fun r => (p, v) :: r

/-- `SuperResolution.train_batch(feature, label, learning_rate)`:
builds `feed_dict = {training_phase: True, learning_rate: lr}` plus the
positional input and label bindings, runs
`list(self.metrics.values()) + self.loss` in one session call, and zips
the metric names with the results (the trailing loss-op values are
dropped by the zip).  `self` is never assigned, so the model is
returned unchanged. -/
def train_batch (m : Model) (evalT : Tensor → FeedDict → Val)
    (feature label : List Val) (learning_rate : ℚ) :
    Model × Except PyError (RunCall × List (String × Val)) :=
  (m, do
    let inF ← bindSeq m.inputs feature
    let lbF ← bindSeq m.label label
    let fd : FeedDict :=
      { training_phase := true
        learning_rate := some learning_rate
        input_feed := inF
        label_feed := lbF }
    let fetches := m.metrics.map Prod.snd ++ m.loss
    let results := fetches.map fun t => evalT t fd
    Except.ok (⟨fetches, fd⟩, (m.metrics.map Prod.fst).zip results))

/-- `SuperResolution.validate_batch(feature, label)`: like
`train_batch` but with `training_phase = False`, no learning-rate bind,
and fetches `list(self.metrics.values()) + [self.summary_op]`; returns
the metric mapping (zipped against `metrics[:-1]`) together with the
evaluated summary (`metrics[-1]`). -/
def validate_batch (m : Model) (evalT : Tensor → FeedDict → Val)
    (feature label : List Val) :
    Model × Except PyError (RunCall × (List (String × Val) × Val)) :=
  (m, do
    let inF ← bindSeq m.inputs feature
    let lbF ← bindSeq m.label label
    let fd : FeedDict :=
      { training_phase := false
        learning_rate := none
        input_feed := inF
        label_feed := lbF }
    let fetches := m.metrics.map Prod.snd ++ [(m.summary_op).getD dummyT]
    let results := fetches.map fun t => evalT t fd
    Except.ok (⟨fetches, fd⟩,
      ((m.metrics.map Prod.fst).zip results.dropLast, results.getLastD 0)))

/-- `SuperResolution.test_batch(inputs, label=None)`: binds the inputs
with `training_phase = False`; `label = to_list(label)` turns an absent
label into the empty list (modelled from the spec: `to_list` lives in
`VSR/Util/Utility.py`, not under src/, and the spec says single arrays
are normalized to single-element sequences — so `None` becomes the
falsy empty list).  If the label list is truthy (nonempty) the labels
are bound too and `self.outputs + list(self.metrics.values())` is run;
otherwise only `self.outputs` is run. -/
def test_batch (m : Model) (evalT : Tensor → FeedDict → Val)
    (inputs label : List Val) :
    Model × Except PyError (RunCall × List Val) :=
  (m, do
    let inF ← bindSeq m.inputs inputs
    if label.isEmpty then
      let fd : FeedDict :=
        { training_phase := false
          learning_rate := none
          input_feed := inF
          label_feed := [] }
      let fetches := m.outputs
      Except.ok (⟨fetches, fd⟩, fetches.map fun t => evalT t fd)
    else
      let lbF ← bindSeq m.label label
      let fd : FeedDict :=
        { training_phase := false
          learning_rate := none
          input_feed := inF
          label_feed := lbF }
      let fetches := m.outputs ++ m.metrics.map Prod.snd
      Except.ok (⟨fetches, fd⟩, fetches.map fun t => evalT t fd))

/-! ### The Espcn subclass (src/VSR/Models/Espcn.py) -/

/-- `Espcn.__init__(scale, layers, ...)`: stores `layers` and `name` on
the instance and delegates to `SuperResolution.__init__`.  `layers` is
carried as an explicit argument of the build methods below. -/
def Espcn_init (scale : ScaleArg) (weight_decay : ℚ) (rgb_input : Bool) :
    Model :=
  SuperResolution_init scale weight_decay rgb_input

/-- The middle stack of `Espcn.build_graph`:
`for _ in range(1, self.layers - 1): x = conv2d(x, 32, 3, tanh,
he_normal, l2(l2_decay))` — `n` is the trip count `layers - 2`
(truncated at zero). -/
def espcn_mid_stack (l2d : ℚ) (x : Tensor) : Nat → Tensor
  | 0 => x
  | Nat.succ n =>
      espcn_mid_stack l2d
        (Tensor.conv x 32 3 (some Initializer.heNormal)
          (some (Regularizer.l2 l2d)) (some Activator.tanh) true) n

/-- `Espcn.build_graph`: calls the base `build_graph`, then with the
hardcoded local `l2_decay = 1e-4` stacks a 64-filter 5×5 tanh
convolution, `layers - 2` middle 32-filter 3×3 tanh convolutions, a
final `scale[0]*scale[1]`-filter 3×3 convolution (all He-normal
initialized and L2-regularized with `l2_decay`), and a pixel-shift
node; the result is appended to `outputs`.  (`tf.layers.conv2d` keeps
its default `use_bias=True`.)  The ghost trace records the graph step. -/
def espcn_build_graph (layers : Nat) (m : Model) : Model :=
  let m := base_build_graph m
  let l2_decay : ℚ := 1/10000
  let x := Tensor.conv (lastT m.inputs_preproc) 64 5
    (some Initializer.heNormal) (some (Regularizer.l2 l2_decay))
    (some Activator.tanh) true
  let x := espcn_mid_stack l2_decay x (layers - 2)
  let x := Tensor.conv x (m.scale.headD 0 * (m.scale.getD 1 0)) 3
    (some Initializer.heNormal) (some (Regularizer.l2 l2_decay)) none true
  let x := Tensor.pixel_shift x m.scale 1
  { m with
    outputs := m.outputs ++ [x]
    buildTrace := m.buildTrace ++ [BuildStep.graph] }

/-- `Espcn.build_loss`: appends a `uint8` single-channel label
placeholder, computes `mse(cast(label), outputs[-1])`, the hardcoded
`tv_decay = 1e-4` total-variation term, the regularization sum, the
Adam minimize op, and registers the four metrics `mse`,
`regularization`, `psnr`, `ssim` in that insertion order.  The ghost
trace records the loss step. -/
def espcn_build_loss (m : Model) : Model :=
  let lbl := Tensor.placeholder DType.uint8 1 "Placeholder"
  let y_true := Tensor.cast lbl DType.float32
  let y_pred := lastT m.outputs
  let mseT := Tensor.mse y_true y_pred
  let tv_decay : ℚ := 1/10000
  let tv_loss := Tensor.mulC
    (Tensor.reduce_mean (Tensor.total_variation y_pred)) tv_decay
  let regular_loss := Tensor.add Tensor.add_n_reg tv_loss
  let lossT := Tensor.add mseT regular_loss
  { m with
    label := m.label ++ [lbl]
    loss := m.loss ++ [Tensor.minimize lossT]
    metrics := m.metrics ++
      [("mse", mseT), ("regularization", regular_loss),
       ("psnr", Tensor.psnr y_true y_pred 255),
       ("ssim", Tensor.ssim y_true y_pred 255)]
    buildTrace := m.buildTrace ++ [BuildStep.lossStep] }

/-- Python dict lookup `self.metrics[k]` (keys registered by
`build_loss` are distinct, so association-list lookup agrees). -/
def metricOf (m : Model) (k : String) : Tensor :=
  ((m.metrics.lookup k).getD dummyT)

/-- `Espcn.build_summary`: registers scalar summaries for the four
metrics (PSNR and SSIM first reduced to a scalar mean).  The ghost
trace records the summary step. -/
def espcn_build_summary (m : Model) : Model :=
  { m with
    summaries := m.summaries ++
      [("loss/mse", metricOf m "mse"),
       ("loss/regularization", metricOf m "regularization"),
       ("psnr", Tensor.reduce_mean (metricOf m "psnr")),
       ("ssim", Tensor.reduce_mean (metricOf m "ssim"))]
    buildTrace := m.buildTrace ++ [BuildStep.summaryStep] }

/-- `Espcn` inherits `compile` from the base; its three build methods
always succeed. -/
def espcn_compile (layers : Nat) (m : Model) : Except PyError Model :=
  compile (espcn_build_graph layers)
    (fun mm => Except.ok (espcn_build_loss mm))
    (fun mm => Except.ok (espcn_build_summary mm)) m

/-- Collects the `kernel_regularizer` arguments of every convolution
node in a tensor expression (used to state that Espcn's regularization
decay is hardcoded). -/
def convRegs : Tensor → List (Option Regularizer)
  | Tensor.cast t _ => convRegs t
  | Tensor.divC t _ => convRegs t
  | Tensor.mulC t _ => convRegs t
  | Tensor.rgb_to_yuv t => convRegs t
  | Tensor.slice t _ _ => convRegs t
  | Tensor.conv x _ _ _ kr _ _ => convRegs x ++ [kr]
  | Tensor.batch_norm x => convRegs x
  | Tensor.act _ x => convRegs x
  | Tensor.pixel_shift x _ _ => convRegs x
  | Tensor.mse a b => convRegs a ++ convRegs b
  | Tensor.total_variation x => convRegs x
  | Tensor.reduce_mean x => convRegs x
  | Tensor.add a b => convRegs a ++ convRegs b
  | Tensor.psnr a b _ => convRegs a ++ convRegs b
  | Tensor.ssim a b _ => convRegs a ++ convRegs b
  | Tensor.minimize t => convRegs t
  | _ => []

/-! ## Theorems for the claims -/

/-- Claim C5: a scale supplied as a single integer `s` is normalized to
the pair `(s, s)`; a supplied pair of two integers is stored as-is.
(`to_list` is modelled from the spec, as `VSR/Util/Utility.py` is not
under src/.) -/
theorem scale_normalization (s a b : Int) (wd : ℚ) (rgb : Bool) :
    (SuperResolution_init (ScaleArg.int s) wd rgb).scale = [s, s] ∧
    (SuperResolution_init (ScaleArg.pair a b) wd rgb).scale = [a, b] :=
  ⟨rfl, rfl⟩

/-- Claim C7: `build_loss` and `build_summary` invoked on the base
class always fail with the `NotImplementedError`, and the error
propagates synchronously through `compile` (the base's only internal
caller) without being recovered. -/
theorem base_abstract_methods_raise (m : Model) :
    base_build_loss m = Except.error (PyError.notImplementedError
      "DO NOT use base SuperResolution directly! Use inheritive models instead.")
    ∧ base_build_summary m = Except.error (PyError.notImplementedError
      "DO NOT use base SuperResolution directly! Use inheritive models instead.")
    ∧ compile base_build_graph base_build_loss base_build_summary m
      = Except.error (PyError.notImplementedError
      "DO NOT use base SuperResolution directly! Use inheritive models instead.") :=
  ⟨rfl, rfl, rfl⟩

/-- Claim C6: on a freshly constructed Espcn model, `compile` runs the
graph, loss and summary build steps in exactly that order (witnessed by
the ghost build trace), merges the registered summaries into the single
`summary_op` handle, sets `compiled` to true and returns the model; the
`compiled` flag is false from construction and after every intermediate
build step, turning true only at `compile`'s end. -/
theorem compile_sequences_build_steps (sc : ScaleArg) (layers : Nat)
    (wd : ℚ) (rgb : Bool) :
    (Espcn_init sc wd rgb).compiled = false ∧
    (espcn_build_graph layers (Espcn_init sc wd rgb)).compiled = false ∧
    (espcn_build_loss (espcn_build_graph layers
      (Espcn_init sc wd rgb))).compiled = false ∧
    (espcn_build_summary (espcn_build_loss (espcn_build_graph layers
      (Espcn_init sc wd rgb)))).compiled = false ∧
    ∃ mF : Model,
      espcn_compile layers (Espcn_init sc wd rgb) = Except.ok mF ∧
      mF.compiled = true ∧
      mF.buildTrace =
        [BuildStep.graph, BuildStep.lossStep, BuildStep.summaryStep] ∧
      mF.summary_op = some (Tensor.merge_summaries mF.summaries) := by
  cases rgb <;>
    exact ⟨rfl, rfl, rfl, rfl, _, rfl, rfl, rfl, rfl⟩

/-- Concrete model for closed evaluation theorems: grayscale, scale 2,
default `weight_decay = 1e-4`. -/
def mC : Model := SuperResolution_init (ScaleArg.int 2) (1/10000) false

/-- Concrete input tensor for closed evaluation theorems. -/
def xC : Tensor := Tensor.placeholder DType.uint8 1 "x"

/-- Claim C2: the tanh branch of `conv2d` is unreachable.  The dead
test `activator == 'tanh'` is constantly false, the string resolution
never yields `tf.nn.tanh` (only `tf.nn.relu` or `None`), every call
with `activation='tanh'` fails rather than building an activated layer,
and with otherwise-default arguments the failure is the `TypeError`
from calling `None`. -/
theorem conv2d_tanh_branch_unreachable :
    (∀ (a : Option Activator) (s : String), activator_eq_str a s = false) ∧
    (∀ s : String, resolve_str_activator s = none ∨
      resolve_str_activator s = some Activator.relu) ∧
    (∀ (m : Model) (x : Tensor) (f : Int) (k : Nat) (ub bn : Bool)
      (ki kr : PyArg),
      exceptIsOk (conv2d m x f k (PyArg.str "tanh") ub bn ki kr) = false) ∧
    conv2d mC xC 64 3 (PyArg.str "tanh") true false PyArg.none PyArg.none
      = Except.error (PyError.typeError "NoneType object is not callable") := by
  refine ⟨fun a s => rfl, fun s => ?_, fun m x f k ub bn ki kr => ?_, rfl⟩
  · by_cases h : s = "relu"
    · exact Or.inr (by simp [resolve_str_activator, h])
    · exact Or.inl (by simp [resolve_str_activator, activator_eq_str, h])
  · cases hki : resolve_ki ki with
    | error e => simp [conv2d, hki, exceptIsOk, Bind.bind, Except.bind]
    | ok v =>
      cases hkr : resolve_kr m.weight_decay kr with
      | error e => simp [conv2d, hki, hkr, exceptIsOk, Bind.bind, Except.bind]
      | ok w =>
        simp [conv2d, hki, hkr, exceptIsOk, PyArg.isTruthy,
          resolve_str_activator, activator_eq_str, Bind.bind, Except.bind]

/-- Claim C1 counterexample: an unrecognized string supplied for
`kernel_initializer` does not raise — `conv2d` silently constructs the
convolution layer with no initializer at all. -/
theorem conv2d_unknown_initializer_silent :
    conv2d mC xC 64 3 PyArg.none true false (PyArg.str "glorot_uniform")
      PyArg.none
    = Except.ok (Tensor.conv xC 64 3 none none none true) := rfl

/-- Claim C1 as amended: an unrecognized string for
`kernel_initializer` or `kernel_regularizer` is silently ignored (it
resolves to `None` and the layer is constructed without error); an
unrecognized nonempty string for `activation` fails, but with the
`TypeError` from calling `None`, not the validation `ValueError`; the
explicit `ValueError`s fire only for truthy arguments that are neither
strings nor callables. -/
theorem conv2d_string_validation (m : Model) (x : Tensor) (f : Int)
    (k : Nat) (ub : Bool) (s : String) :
    (s ≠ "he_normal" →
      resolve_ki (PyArg.str s) = Except.ok none ∧
      conv2d m x f k PyArg.none ub false (PyArg.str s) PyArg.none
        = Except.ok (Tensor.conv x f k none none none ub)) ∧
    (s ≠ "l1" → s ≠ "l2" →
      resolve_kr m.weight_decay (PyArg.str s) = Except.ok none ∧
      conv2d m x f k PyArg.none ub false PyArg.none (PyArg.str s)
        = Except.ok (Tensor.conv x f k none none none ub)) ∧
    (s ≠ "" → s ≠ "relu" →
      conv2d m x f k (PyArg.str s) ub false PyArg.none PyArg.none
        = Except.error (PyError.typeError "NoneType object is not callable")) ∧
    (resolve_ki (PyArg.other true)
      = Except.error (PyError.valueError "invalid kernel initializer!") ∧
    resolve_kr m.weight_decay (PyArg.other true)
      = Except.error (PyError.valueError "invalid kernel regularizer!") ∧
    conv2d m x f k (PyArg.other true) ub false PyArg.none PyArg.none
      = Except.error (PyError.valueError "invalid activation!")) := by
  refine ⟨fun h1 => ?_, fun h1 h2 => ?_, fun h1 h2 => ?_, rfl, rfl, rfl⟩
  · exact ⟨by simp [resolve_ki, h1],
      by simp [conv2d, resolve_ki, resolve_kr, h1, PyArg.isTruthy,
        Bind.bind, Except.bind]⟩
  · exact ⟨by simp [resolve_kr, h1, h2],
      by simp [conv2d, resolve_ki, resolve_kr, h1, h2, PyArg.isTruthy,
        Bind.bind, Except.bind]⟩
  · simp [conv2d, resolve_ki, resolve_kr, PyArg.isTruthy, h1, h2,
      resolve_str_activator, activator_eq_str, Bind.bind, Except.bind]

/-- Witness for `conv2d_string_validation` at the concrete unrecognized
string `"xavier"` and the concrete model `mC`. -/
theorem conv2d_string_validation_witness :
    conv2d mC xC 64 3 PyArg.none true false (PyArg.str "xavier") PyArg.none
      = Except.ok (Tensor.conv xC 64 3 none none none true) ∧
    conv2d mC xC 64 3 PyArg.none true false PyArg.none (PyArg.str "xavier")
      = Except.ok (Tensor.conv xC 64 3 none none none true) ∧
    conv2d mC xC 64 3 (PyArg.str "xavier") true false PyArg.none PyArg.none
      = Except.error (PyError.typeError "NoneType object is not callable") := by
  have h := conv2d_string_validation mC xC 64 3 true "xavier"
  exact ⟨(h.1 (by decide)).2, (h.2.1 (by decide) (by decide)).2,
    h.2.2.1 (by decide) (by decide)⟩

/-- Concrete input placeholder used by the batch-method witnesses. -/
def phIn : Tensor := Tensor.placeholder DType.uint8 1 "in"

/-- Concrete label placeholder used by the batch-method witnesses. -/
def phLb : Tensor := Tensor.placeholder DType.uint8 1 "lb"

/-- Concrete output tensor used by the batch-method witnesses. -/
def outW : Tensor := Tensor.act Activator.relu phIn

/-- A small concrete model with one input, one label, one output, one
loss op and one metric, used by the batch-method witnesses. -/
def mW : Model :=
  { mC with
    inputs := [phIn]
    label := [phLb]
    outputs := [outW]
    loss := [Tensor.minimize outW]
    metrics := [("mse", Tensor.mse phLb outW)] }

/-- A concrete evaluation oracle for the batch-method witnesses. -/
def evalW : Tensor → FeedDict → Val := fun _ _ => 0

/-- Helper: when enough values are supplied, the positional binding
loop succeeds and binds the i-th placeholder to the i-th value. -/
theorem bindSeq_ok (phs : List Tensor) (vals : List Val)
    (h : phs.length ≤ vals.length) :
    bindSeq phs vals = Except.ok (phs.zip vals) := by
  induction phs generalizing vals with
  | nil => cases vals <;> rfl
  | cons p ps ih =>
    cases vals with
    | nil => exact absurd h (by simp)
    | cons v vs =>
      simp [bindSeq, Except.map, List.zip_cons_cons, ih vs (by simpa using h)]

/-- Helper: zipping the metric names against the evaluations of the
metric tensors followed by any further fetched values drops the latter
and yields exactly the name-to-evaluation mapping. -/
theorem zip_names_eval (l : List (String × Tensor)) (f : Tensor → Val)
    (rest : List Val) :
    (l.map Prod.fst).zip ((l.map Prod.snd).map f ++ rest)
      = l.map fun kv => (kv.1, f kv.2) := by
  induction l with
  | nil => rfl
  | cons kv t ih =>
    simp only [List.map_cons, List.cons_append, List.zip_cons_cons, ih]

/-- Claim C3: `train_batch` on a batch with enough feature/label arrays
builds one feed dict with `is_training = True` and the given learning
rate, binds the i-th feature to the i-th input placeholder and the i-th
label to the i-th label placeholder, fetches all metrics and all loss
ops in the single recorded session run, and returns exactly the metric
names (in insertion order) paired with their evaluated values — the
loss-op values are dropped. -/
theorem train_batch_spec (m : Model) (evalT : Tensor → FeedDict → Val)
    (feature label : List Val) (lr : ℚ)
    (hf : m.inputs.length ≤ feature.length)
    (hl : m.label.length ≤ label.length) :
    ∃ fd : FeedDict,
      fd.training_phase = true ∧
      fd.learning_rate = some lr ∧
      fd.input_feed = m.inputs.zip feature ∧
      fd.label_feed = m.label.zip label ∧
      (train_batch m evalT feature label lr).snd =
        Except.ok (⟨m.metrics.map Prod.snd ++ m.loss, fd⟩,
          m.metrics.map fun kv => (kv.1, evalT kv.2 fd)) := by
  refine ⟨⟨true, some lr, m.inputs.zip feature, m.label.zip label⟩,
    rfl, rfl, rfl, rfl, ?_⟩
  simp only [train_batch, bindSeq_ok _ _ hf, bindSeq_ok _ _ hl,
    Bind.bind, Except.bind, List.map_append]
  rw [zip_names_eval]

/-- Witness for `train_batch_spec` at the concrete model `mW`. -/
theorem train_batch_spec_witness :
    ∃ fd : FeedDict,
      fd.training_phase = true ∧
      fd.learning_rate = some 1 ∧
      fd.input_feed = mW.inputs.zip [3] ∧
      fd.label_feed = mW.label.zip [4] ∧
      (train_batch mW evalW [3] [4] 1).snd =
        Except.ok (⟨mW.metrics.map Prod.snd ++ mW.loss, fd⟩,
          mW.metrics.map fun kv => (kv.1, evalW kv.2 fd)) :=
  train_batch_spec mW evalW [3] [4] 1 (by decide) (by decide)

/-- Claim C8: `test_batch` binds `is_training = False` and the inputs
positionally; with a (truthy) label list it also binds the labels and
fetches both the outputs and the metric values; with no labels it
fetches (and returns) only the evaluated outputs, evaluating no
metrics. -/
theorem test_batch_spec (m : Model) (evalT : Tensor → FeedDict → Val)
    (inputs label : List Val)
    (hf : m.inputs.length ≤ inputs.length) :
    (label = [] →
      (test_batch m evalT inputs label).snd =
        Except.ok (⟨m.outputs, ⟨false, none, m.inputs.zip inputs, []⟩⟩,
          m.outputs.map fun t =>
            evalT t ⟨false, none, m.inputs.zip inputs, []⟩)) ∧
    (label ≠ [] → m.label.length ≤ label.length →
      (test_batch m evalT inputs label).snd =
        Except.ok (⟨m.outputs ++ m.metrics.map Prod.snd,
          ⟨false, none, m.inputs.zip inputs, m.label.zip label⟩⟩,
          (m.outputs ++ m.metrics.map Prod.snd).map fun t =>
            evalT t ⟨false, none, m.inputs.zip inputs, m.label.zip label⟩)) := by
  constructor
  · intro hlab
    subst hlab
    simp [test_batch, bindSeq_ok _ _ hf, Bind.bind, Except.bind]
  · intro hlab hl
    simp [test_batch, bindSeq_ok _ _ hf, bindSeq_ok _ _ hl,
      Bind.bind, Except.bind, List.isEmpty_iff, hlab]

/-- Witness for `test_batch_spec` at the concrete model `mW`, in both
the label-free and the labelled case. -/
theorem test_batch_spec_witness :
    (test_batch mW evalW [3] []).snd =
      Except.ok (⟨mW.outputs, ⟨false, none, mW.inputs.zip [3], []⟩⟩,
        mW.outputs.map fun t =>
          evalW t ⟨false, none, mW.inputs.zip [3], []⟩) ∧
    (test_batch mW evalW [3] [4]).snd =
      Except.ok (⟨mW.outputs ++ mW.metrics.map Prod.snd,
        ⟨false, none, mW.inputs.zip [3], mW.label.zip [4]⟩⟩,
        (mW.outputs ++ mW.metrics.map Prod.snd).map fun t =>
          evalW t ⟨false, none, mW.inputs.zip [3], mW.label.zip [4]⟩) :=
  ⟨(test_batch_spec mW evalW [3] [] (by decide)).1 rfl,
    (test_batch_spec mW evalW [3] [4] (by decide)).2 (by decide) (by decide)⟩

/-- Claim C10: the three batched execution methods only build a local
feed dict and delegate to the external session; the model state they
return is the very model they were given, every field included. -/
theorem batch_methods_leave_model_unchanged (m : Model)
    (evalT : Tensor → FeedDict → Val) (feature label : List Val) (lr : ℚ) :
    (train_batch m evalT feature label lr).fst = m ∧
    (validate_batch m evalT feature label).fst = m ∧
    (test_batch m evalT feature label).fst = m :=
  ⟨rfl, rfl, rfl⟩

/-- The 4-channel RGBA input placeholder built by `build_graph`. -/
def rgbaPh : Tensor := Tensor.placeholder DType.uint8 4 "input/lr/rgba"

/-- The YUV tensor built by `build_graph` in RGBA mode:
`rgb_to_yuv((cast(ph)/255)[..., :-1])`. -/
def yuvT : Tensor :=
  Tensor.rgb_to_yuv (Tensor.slice
    (Tensor.divC (Tensor.cast rgbaPh DType.float32) 255) 0 (some (-1)))

/-- The UV preprocessing tensor, `inputs_preproc[0]` in RGBA mode. -/
def uvT : Tensor := Tensor.slice yuvT 1 none

/-- The Y preprocessing tensor, `inputs_preproc[1]` in RGBA mode. -/
def yT : Tensor := Tensor.mulC (Tensor.slice yuvT 0 (some 1)) 255

/-- Claim C4 counterexample: at the valid RGBA pixel (255, 0, 0, a) —
pure red — the V channel of the UV preprocessing tensor evaluates to
0.61497538, which is outside [-0.5, 0.5]; the claimed UV range is
violated on valid input. -/
theorem rgba_uv_exceeds_half :
    evalChans uvT [255, 0, 0, 0]
      = [-14714119/100000000, 61497538/100000000] ∧
    ¬((61497538 : ℚ)/100000000 ≤ 1/2) := by
  constructor
  · simp [uvT, yuvT, rgbaPh, evalChans, pySlice, pyIndex]
    norm_num [yuv_u, yuv_v]
  · norm_num

/-- Claim C4 as amended: grayscale mode yields exactly one single-
channel `uint8` placeholder and one preprocessed tensor equal to its
float cast; RGBA mode yields exactly one 4-channel placeholder and
exactly two preprocessed tensors — first the UV channels of the
RGB→YUV conversion of the [0,1]-scaled RGB channels (alpha discarded),
and second the Y channel rescaled to [0, 255].  For valid RGB input the
U channel stays in [-0.5, 0.5] and the V channel in
[-0.61497538, 0.61497538] (V can exceed 0.5, so the UV pair is only
bounded by 0.61497538 in absolute value); the rescaled Y channel stays
in [0, 255]. -/
theorem build_graph_preproc_spec (sc : ScaleArg) (wd : ℚ) (r g b : ℚ)
    (hr0 : 0 ≤ r) (hr1 : r ≤ 255) (hg0 : 0 ≤ g) (hg1 : g ≤ 255)
    (hb0 : 0 ≤ b) (hb1 : b ≤ 255) (a : ℚ) :
    (base_build_graph (SuperResolution_init sc wd false)).inputs
      = [Tensor.placeholder DType.uint8 1 "input/lr/gray"] ∧
    (base_build_graph (SuperResolution_init sc wd false)).inputs_preproc
      = [Tensor.cast (Tensor.placeholder DType.uint8 1 "input/lr/gray")
          DType.float32] ∧
    (base_build_graph (SuperResolution_init sc wd true)).inputs
      = [rgbaPh] ∧
    (base_build_graph (SuperResolution_init sc wd true)).inputs_preproc
      = [uvT, yT] ∧
    evalChans uvT [r, g, b, a]
      = [yuv_u (r/255) (g/255) (b/255), yuv_v (r/255) (g/255) (b/255)] ∧
    (-(1/2) ≤ yuv_u (r/255) (g/255) (b/255) ∧
      yuv_u (r/255) (g/255) (b/255) ≤ 1/2) ∧
    (-(61497538/100000000) ≤ yuv_v (r/255) (g/255) (b/255) ∧
      yuv_v (r/255) (g/255) (b/255) ≤ 61497538/100000000) ∧
    evalChans yT [r, g, b, a]
      = [yuv_y (r/255) (g/255) (b/255) * 255] ∧
    (0 ≤ yuv_y (r/255) (g/255) (b/255) * 255 ∧
      yuv_y (r/255) (g/255) (b/255) * 255 ≤ 255) := by
  refine ⟨rfl, rfl, rfl, rfl, ?_, ⟨?_, ?_⟩, ⟨?_, ?_⟩, ?_, ?_, ?_⟩
  · simp [uvT, yuvT, rgbaPh, evalChans, pySlice, pyIndex]
  · simp only [yuv_u]; linarith
  · simp only [yuv_u]; linarith
  · simp only [yuv_v]; linarith
  · simp only [yuv_v]; linarith
  · simp [yT, yuvT, rgbaPh, evalChans, pySlice, pyIndex]
  · simp only [yuv_y]; linarith
  · simp only [yuv_y]; linarith

/-- Witness for `build_graph_preproc_spec` at the valid black pixel
(0, 0, 0, 0). -/
theorem build_graph_preproc_spec_witness :
    evalChans uvT [0, 0, 0, 0]
      = [yuv_u (0/255) (0/255) (0/255), yuv_v (0/255) (0/255) (0/255)] ∧
    -(1/2) ≤ yuv_u ((0:ℚ)/255) (0/255) (0/255) ∧
    yuv_u ((0:ℚ)/255) (0/255) (0/255) ≤ 1/2 ∧
    -(61497538/100000000) ≤ yuv_v ((0:ℚ)/255) (0/255) (0/255) ∧
    yuv_v ((0:ℚ)/255) (0/255) (0/255) ≤ 61497538/100000000 := by
  obtain ⟨-, -, -, -, h5, ⟨h6, h7⟩, ⟨h8, h9⟩, -, -⟩ :=
    build_graph_preproc_spec (ScaleArg.int 2) (1/10000) 0 0 0
      le_rfl (by norm_num) le_rfl (by norm_num) le_rfl (by norm_num) 0
  exact ⟨h5, h6, h7, h8, h9⟩

/-- Helper: the middle convolution stack of `Espcn.build_graph` adds
one L2-regularized convolution per trip. -/
theorem convRegs_mid_stack (d : ℚ) (x : Tensor) (n : Nat) :
    convRegs (espcn_mid_stack d x n)
      = convRegs x ++ List.replicate n (some (Regularizer.l2 d)) := by
  induction n generalizing x with
  | zero => simp [espcn_mid_stack]
  | succ n ih =>
    rw [espcn_mid_stack, ih]
    simp [convRegs, List.replicate_succ]

/-- Helper: every convolution in the Espcn output stack carries the
hardcoded L2 decay, provided the preprocessing input holds no
convolution. -/
theorem convRegs_espcn_out (pre : Tensor) (hpre : convRegs pre = [])
    (n : Nat) (fil : Int) (sc : List Int) (kr : Option Regularizer)
    (hkr : kr ∈ convRegs (Tensor.pixel_shift
      (Tensor.conv (espcn_mid_stack (1/10000)
        (Tensor.conv pre 64 5 (some Initializer.heNormal)
          (some (Regularizer.l2 (1/10000))) (some Activator.tanh) true) n)
        fil 3 (some Initializer.heNormal)
        (some (Regularizer.l2 (1/10000))) none true) sc 1)) :
    kr = some (Regularizer.l2 (1/10000)) := by
  simp [convRegs, convRegs_mid_stack, hpre, List.mem_append,
    List.mem_replicate] at hkr
  rcases hkr with h | h | h
  · simpa using h
  · simpa using h.2
  · simpa using h

/-- Claim C9: the regularization strengths of Espcn are hardcoded
constants: every convolution of `build_graph` carries an L2 kernel
regularizer with decay 1e-4, the total-variation penalty of
`build_loss` uses decay 1e-4, and the configured `weight_decay` has no
effect — compiling with a different `weight_decay` yields the same
model except for the stored `weight_decay` field itself. -/
theorem espcn_hardcoded_regularization (sc : ScaleArg) (layers : Nat)
    (w1 w2 : ℚ) (rgb : Bool) :
    ((espcn_build_graph layers (Espcn_init sc w1 rgb)).outputs
      = [lastT (espcn_build_graph layers (Espcn_init sc w1 rgb)).outputs] ∧
    ∀ kr ∈ convRegs (lastT (espcn_build_graph layers
        (Espcn_init sc w1 rgb)).outputs),
      kr = some (Regularizer.l2 (1/10000))) ∧
    (∃ tv : Tensor,
      (espcn_build_loss (espcn_build_graph layers
        (Espcn_init sc w1 rgb))).metrics.lookup "regularization"
      = some (Tensor.add Tensor.add_n_reg (Tensor.mulC tv (1/10000)))) ∧
    espcn_compile layers (Espcn_init sc w2 rgb)
      = (espcn_compile layers (Espcn_init sc w1 rgb)).map
          (fun mm => { mm with weight_decay := w2 }) := by
  refine ⟨⟨by cases rgb <;> rfl, ?_⟩, ?_, ?_⟩
  · intro kr hkr
    cases rgb with
    | false =>
      exact convRegs_espcn_out
        (lastT (base_build_graph (Espcn_init sc w1 false)).inputs_preproc)
        rfl (layers - 2) _ _ kr hkr
    | true =>
      exact convRegs_espcn_out
        (lastT (base_build_graph (Espcn_init sc w1 true)).inputs_preproc)
        rfl (layers - 2) _ _ kr hkr
  · exact ⟨Tensor.reduce_mean (Tensor.total_variation
      (lastT (espcn_build_graph layers (Espcn_init sc w1 rgb)).outputs)),
      by cases rgb <;> rfl⟩
  · cases rgb <;> rfl

end VSR
